import Mathlib

/-!
Verification development for the webpay repository (Bango webhook views and
the Solitude API client).  The Python source in src/webpay/bango/views.py and
src/lib/solitude/api.py is shallowly embedded: Python dict/list/str values
become the inductive type Val, Python truthiness becomes the function truthy,
the external cache becomes an association list threaded through the
functions, and each network call is recorded as an event so that theorems
can speak about which backend calls a code path performs.
-/

namespace Webpay

/-- Embedding of the Python/JSON values that flow through the code under
study: None, booleans, integers, strings, lists and dicts (dicts as
association lists in insertion order, mirroring CPython dict semantics for
the operations used here). -/
inductive Val where
  | null : Val
  | bool : Bool → Val
  | int : Int → Val
  | str : String → Val
  | list : List Val → Val
  | dict : List (String × Val) → Val
deriving Repr

mutual

/-- Boolean equality on embedded values (structural). -/
def Val.beq : Val → Val → Bool
  | .null, .null => true
  | .bool a, .bool b => a == b
  | .int a, .int b => a == b
  | .str a, .str b => a == b
  | .list xs, .list ys => Val.beqList xs ys
  | .dict xs, .dict ys => Val.beqPairs xs ys
  | _, _ => false

/-- Boolean equality on lists of embedded values. -/
def Val.beqList : List Val → List Val → Bool
  | [], [] => true
  | x :: xs, y :: ys => Val.beq x y && Val.beqList xs ys
  | _, _ => false

/-- Boolean equality on association lists of embedded values. -/
def Val.beqPairs : List (String × Val) → List (String × Val) → Bool
  | [], [] => true
  | (k, v) :: xs, (l, w) :: ys =>
      k == l && Val.beq v w && Val.beqPairs xs ys
  | _, _ => false

end

mutual

/-- Val.beq decides propositional equality. -/
theorem Val.beq_eq : ∀ (a b : Val), Val.beq a b = true ↔ a = b
  | .null, b => by cases b <;> simp [Val.beq]
  | .bool x, b => by cases b <;> simp [Val.beq]
  | .int x, b => by cases b <;> simp [Val.beq]
  | .str x, b => by cases b <;> simp [Val.beq]
  | .list xs, b => by
      cases b <;> simp [Val.beq]
      exact Val.beqList_eq xs _
  | .dict xs, b => by
      cases b <;> simp [Val.beq]
      exact Val.beqPairs_eq xs _

/-- Val.beqList decides propositional equality of value lists. -/
theorem Val.beqList_eq : ∀ (xs ys : List Val), Val.beqList xs ys = true ↔ xs = ys
  | [], ys => by cases ys <;> simp [Val.beqList]
  | x :: xs, ys => by
      cases ys with
      | nil => simp [Val.beqList]
      | cons y ys =>
          simp [Val.beqList, Bool.and_eq_true, Val.beq_eq x y,
                Val.beqList_eq xs ys]

/-- Val.beqPairs decides propositional equality of association lists. -/
theorem Val.beqPairs_eq :
    ∀ (xs ys : List (String × Val)), Val.beqPairs xs ys = true ↔ xs = ys
  | [], ys => by cases ys <;> simp [Val.beqPairs]
  | (k, v) :: xs, ys => by
      cases ys with
      | nil => simp [Val.beqPairs]
      | cons p ys =>
          obtain ⟨l, w⟩ := p
          simp [Val.beqPairs, Bool.and_eq_true, Val.beq_eq v w,
                Val.beqPairs_eq xs ys, and_assoc]

end

instance : DecidableEq Val := fun a b =>
  decidable_of_iff (Val.beq a b = true) (Val.beq_eq a b)

/-- Lookup of a key in an association list, first match wins (the lists we
build have distinct keys, matching Python dicts). -/
def getKey : List (String × Val) → String → Option Val
  | [], _ => none
  | (k, v) :: rest, k0 => if k = k0 then some v else getKey rest k0

/-- Update a key in place when present, append otherwise: the effect of a
Python dict item assignment. -/
def setKey : List (String × Val) → String → Val → List (String × Val)
  | [], k0, x => [(k0, x)]
  | (k, v) :: rest, k0, x =>
      if k = k0 then (k0, x) :: rest else (k, v) :: setKey rest k0 x

/-- Python d.get(k): some v when the dict has the key, none otherwise
(non-dicts have no keys; the code only calls .get on dicts). -/
def dget (v : Val) (k : String) : Option Val :=
  match v with
  | .dict d => getKey d k
  | _ => none

/-- Python d.get(k) with the default None made explicit as a Val. -/
def pyGet (v : Val) (k : String) : Val :=
  (dget v k).getD .null

/-- Python d.get(k, dflt). -/
def pyGetD (v : Val) (k : String) (dflt : Val) : Val :=
  (dget v k).getD dflt

/-- Python item assignment d[k] = x on a dict (identity on non-dicts,
which the embedded code never hits). -/
def dset (v : Val) (k : String) (x : Val) : Val :=
  match v with
  | .dict d => .dict (setKey d k x)
  | _ => v

/-- Python key membership: k in d. -/
def hasKey (v : Val) (k : String) : Bool :=
  (dget v k).isSome

/-- Python truthiness of a value: None, False, 0, empty string, empty list
and empty dict are falsy, everything else is truthy. -/
def truthy : Val → Bool
  | .null => false
  | .bool b => b
  | .int n => n != 0
  | .str s => s != ""
  | .list xs => !xs.isEmpty
  | .dict d => !d.isEmpty

/-- Python string interpolation percent-s for the values the code formats
this way (etags: strings or None).  List and dict renderings are
abbreviated; the embedded code never formats those. -/
def pyStr : Val → String
  | .null => "None"
  | .bool true => "True"
  | .bool false => "False"
  | .int n => toString n
  | .str s => s
  | .list _ => "[list]"
  | .dict _ => "[dict]"

/-!  The response normalizer, from src/lib/solitude/api.py lines 31-46
(SolitudeAPI, method named object from response with a leading
underscore).  The Python try/except KeyError around the meta lookup is
embedded by matching on the presence of the meta and headers keys; a
missing key is the caught KeyError (pass), a present headers dict is read
with .get and the empty-string default. -/

/-- Embeds the tail of the normalizer: try to attach
res meta headers etag (with default empty string) to obj under the key
etag; a KeyError from a missing meta or headers key is swallowed. -/
def attachEtag (res obj : Val) : Val :=
  match dget res "meta" with
  | none => obj
  | some m =>
      match dget m "headers" with
      | none => obj
      | some h => dset obj "etag" (pyGetD h "etag" (.str ""))

/-- Embeds the objects branch: obj = first element of res at key objects,
then obj gets key id from that element at key resource underscore pk.  The
branch is only entered when the objects value is truthy; a truthy value
that is not a list would raise in Python and never occurs in the data this
code handles, so it maps to the empty dict here. -/
def firstObjWithId (res : Val) : Val :=
  match dget res "objects" with
  | some (.list (o :: _)) => dset o "id" (pyGet o "resource_pk")
  | _ => .dict []

/-- Embedding of SolitudeAPI method object from response (underscore
prefixed), src/lib/solitude/api.py lines 31-46: error pass-through on a
truthy errors value, unwrapping of a collection envelope, aliasing of the
resource primary key to id, and etag attachment for truthy results. -/
def object_from_response (res : Val) : Val :=
  if truthy (pyGet res "errors") then res
  else
    let obj : Val :=
      if truthy (pyGet res "objects") then firstObjWithId res
      else if truthy (pyGet res "resource_pk") then
        dset res "id" (pyGet res "resource_pk")
      else .dict []
    if truthy obj then attachEtag res obj else obj

/-!  The buyer read/write paths of SolitudeAPI, src/lib/solitude/api.py.
The django cache is embedded as an association list of string keys to
values; the solitude backend is an oracle passed in as a function, and
every network call the client issues is recorded in a call trace so that
theorems can state which requests a path performs and with which headers.
safe_run (from lib/utils, outside this repository) forwards the slumber
call, so the oracle models the value safe_run hands back. -/

/-- The external shared cache: django cache keys to values. -/
abbrev Cache := List (String × Val)

/-- cache.get. -/
def Cache.get (c : Cache) (k : String) : Option Val := getKey c k

/-- cache.set. -/
def Cache.set (c : Cache) (k : String) (v : Val) : Cache := setKey c k v

/-- Outcome of the slumber buyer GET as seen through safe_run: either the
ResourceNotModified exception or a response value. -/
inductive FetchResult where
  | notModified : FetchResult
  | ok : Val → FetchResult
deriving DecidableEq, Repr

/-- The backend oracle for buyer GETs: a function of the If-None-Match
header value the client sends (none when no header is attached). -/
abbrev Backend := Option Val → FetchResult

/-- One recorded network call of the buyer API. -/
inductive ApiCall where
  | buyerGet : Option Val → String → ApiCall
  | buyerPost : Val → ApiCall
  | buyerPatch : Val → Val → Val → ApiCall
deriving DecidableEq, Repr

/-- One pass of SolitudeAPI.get_buyer (src/lib/solitude/api.py lines
64-84) with the recursive retry abstracted as a continuation: reads the
cached etag when use underscore etags is set, attaches it as If-None-Match
when truthy, on ResourceNotModified returns the body cached under the etag
or falls back to the continuation, and on a response normalizes it and,
when the result has an etag key, writes both cache relations. -/
def get_buyer_step (fetch : Backend) (uuid : String) (use_etags : Bool)
    (cache : Cache) (retry : Cache → Option (Val × Cache × List ApiCall)) :
    Option (Val × Cache × List ApiCall) :=
  let etagVar : Val :=
    if use_etags then ((Cache.get cache ("etag:" ++ uuid)).getD .null) else .null
  let cond : Option Val := if truthy etagVar then some etagVar else none
  match fetch cond with
  | .notModified =>
      let body := (Cache.get cache ("buyer:" ++ pyStr etagVar)).getD .null
      if truthy body then some (body, cache, [.buyerGet cond uuid])
      else
        match retry cache with
        | some (v, c, calls) => some (v, c, .buyerGet cond uuid :: calls)
        | none => none
  | .ok res =>
      let obj := object_from_response res
      match dget obj "etag" with
      | some e =>
          some (obj,
                Cache.set (Cache.set cache ("etag:" ++ uuid) e)
                  ("buyer:" ++ pyStr e) obj,
                [.buyerGet cond uuid])
      | none => some (obj, cache, [.buyerGet cond uuid])

/-- SolitudeAPI.get_buyer, src/lib/solitude/api.py lines 64-84.  The
Python recursion bottoms out after one retry with use underscore etags set
to False; the corner in which even the unconditional fetch reports
not-modified and no body is cached would recurse forever in Python and is
embedded as the outcome none. -/
def get_buyer (fetch : Backend) (uuid : String) (use_etags : Bool)
    (cache : Cache) : Option (Val × Cache × List ApiCall) :=
  if use_etags then
    get_buyer_step fetch uuid true cache
      (fun c => get_buyer_step fetch uuid false c (fun _ => none))
  else
    get_buyer_step fetch uuid false cache (fun _ => none)

/-- SolitudeAPI.create_buyer, src/lib/solitude/api.py lines 48-62.  The
argument res is the response safe_run hands back for the buyer POST. -/
def create_buyer (res : Val) (uuid : String) (pin : Val) (cache : Cache) :
    Val × Cache × List ApiCall :=
  let calls := [ApiCall.buyerPost (Val.dict [("uuid", .str uuid), ("pin", pin)])]
  let obj := object_from_response res
  match dget obj "etag" with
  | some e =>
      (obj,
       Cache.set (Cache.set cache ("etag:" ++ uuid) e) ("buyer:" ++ pyStr e) obj,
       calls)
  | none => (obj, cache, calls)

/-- Common body of the four buyer-flag update methods (src/lib/solitude/
api.py lines 86-149): re-read the buyer, PATCH the given payload at the
buyer id with an If-Match header carrying the etag argument, return the
patch response when it has an errors key and the empty dict otherwise.
The outcome is none when the re-read diverges or the buyer dict lacks an
id key (a KeyError crash in Python). -/
def patch_buyer_flags (fetch : Backend) (patchRes : Val) (uuid : String)
    (payload : Val) (etag : Val) (cache : Cache) :
    Option (Val × Cache × List ApiCall) :=
  match get_buyer fetch uuid true cache with
  | none => none
  | some (buyer, c, calls) =>
      match dget buyer "id" with
      | none => none
      | some i =>
          let r := if hasKey patchRes "errors" then patchRes else Val.dict []
          some (r, c, calls ++ [.buyerPatch i payload etag])

/-- SolitudeAPI.set_needs_pin_reset, src/lib/solitude/api.py lines 86-100. -/
def set_needs_pin_reset (fetch : Backend) (patchRes : Val) (uuid : String)
    (value : Val) (etag : Val) (cache : Cache) :
    Option (Val × Cache × List ApiCall) :=
  patch_buyer_flags fetch patchRes uuid
    (Val.dict [("needs_pin_reset", value), ("new_pin", .null)]) etag cache

/-- SolitudeAPI.unset_was_locked, src/lib/solitude/api.py lines 102-114. -/
def unset_was_locked (fetch : Backend) (patchRes : Val) (uuid : String)
    (etag : Val) (cache : Cache) : Option (Val × Cache × List ApiCall) :=
  patch_buyer_flags fetch patchRes uuid
    (Val.dict [("pin_was_locked_out", .bool false)]) etag cache

/-- SolitudeAPI.change_pin, src/lib/solitude/api.py lines 116-132. -/
def change_pin (fetch : Backend) (patchRes : Val) (uuid : String)
    (pin : Val) (etag : Val) (cache : Cache) :
    Option (Val × Cache × List ApiCall) :=
  patch_buyer_flags fetch patchRes uuid (Val.dict [("pin", pin)]) etag cache

/-- SolitudeAPI.set_new_pin, src/lib/solitude/api.py lines 134-149. -/
def set_new_pin (fetch : Backend) (patchRes : Val) (uuid : String)
    (new_pin : Val) (etag : Val) (cache : Cache) :
    Option (Val × Cache × List ApiCall) :=
  patch_buyer_flags fetch patchRes uuid (Val.dict [("new_pin", new_pin)]) etag cache

/-!  The Bango webhook views, src/webpay/bango/views.py.  Developer error
codes come from webpay/base/dev_messages, a module of distinct constants
that is not under src; they are embedded as an enumeration.  system_error
(webpay/base/utils, also not under src) renders an error page carrying the
code and is embedded as the page constructor systemError.  The solitude
notification and event POSTs are recorded as calls, with a boolean oracle
saying whether the POST succeeds or raises HttpClientError; enqueued
celery tasks are recorded in a task list, and the enqueue is
fire-and-forget: no page outcome below depends on anything a task does. -/

/-- Modelled from the spec: the developer error codes of
webpay/base/dev_messages used by the Bango views (the module defines
distinct constants; only distinctness matters here). -/
inductive DevMsg where
  | NO_ACTIVE_TRANS : DevMsg
  | NOTICE_ERROR : DevMsg
  | BAD_BANGO_CODE : DevMsg
  | USER_CANCELLED : DevMsg
  | UNSUPPORTED_PAY : DevMsg
  | BANGO_ERROR : DevMsg
deriving DecidableEq, Repr

/-- Return value of the record helper: the RECORDED_OK marker or a
developer error code. -/
inductive RecordResult where
  | recordedOk : RecordResult
  | devError : DevMsg → RecordResult
deriving DecidableEq, Repr

/-- One recorded POST from the Bango views to solitude. -/
inductive BangoCall where
  | notificationPost : Val → BangoCall
  | eventPost : Val → BangoCall
deriving DecidableEq, Repr

/-- One recorded task enqueue from the Bango views. -/
inductive Task where
  | payment_notify : Val → Task
  | fake_payment_notify : String → Val → Val → Task
deriving DecidableEq, Repr

/-- The dict the record helper POSTs to the solitude bango notification
endpoint (src/webpay/bango/views.py lines 51-61). -/
def notice_payload (qs : Val) : Val :=
  Val.dict
    [("moz_signature", pyGet qs "MozSignature"),
     ("moz_transaction", pyGet qs "MerchantTransactionId"),
     ("billing_config_id", pyGet qs "BillingConfigurationId"),
     ("bango_response_code", pyGet qs "ResponseCode"),
     ("bango_response_message", pyGet qs "ResponseMessage"),
     ("bango_trans_id", pyGet qs "BangoTransactionId"),
     ("bango_token", pyGet qs "Token"),
     ("amount", pyGet qs "Price"),
     ("currency", pyGet qs "Currency")]

/-- The record helper of the Bango views (underscore record,
src/webpay/bango/views.py lines 30-67): validate the transaction id
against the session, then POST the notice fields to solitude; notifyOk
says whether that POST succeeds or raises HttpClientError.  session_uuid
is request.session.get of trans underscore id (None when absent), qs the
GET query dict. -/
def _record (notifyOk : Bool) (session_uuid : Val) (qs : Val) :
    RecordResult × List BangoCall :=
  let trans_uuid := pyGet qs "MerchantTransactionId"
  if truthy session_uuid && !(trans_uuid == session_uuid) then
    (.devError .NO_ACTIVE_TRANS, [])
  else if !truthy trans_uuid then
    (.devError .NO_ACTIVE_TRANS, [])
  else
    if notifyOk then (.recordedOk, [.notificationPost (notice_payload qs)])
    else (.devError .NOTICE_ERROR, [.notificationPost (notice_payload qs)])

/-- Rendered outcome of the success and error webhook views: the success
template, the cancel template with an error code in its context, or the
system error page with a developer code (system_error from
webpay/base/utils, modelled from the spec as an error page carrying the
enumerated code). -/
inductive Page where
  | success : Page
  | cancel : DevMsg → Page
  | systemError : DevMsg → Page
deriving DecidableEq, Repr

/-- The success webhook view, src/webpay/bango/views.py lines 70-111.
fake_payments embeds settings.FAKE_PAYMENTS, fake_uuid the fresh uuid4
drawn on that branch, session_pay_request and session_issuer_key the two
session note fields it forwards.  Returns the rendered page, the solitude
calls made and the tasks enqueued. -/
def success (fake_payments : Bool) (notifyOk : Bool) (fake_uuid : String)
    (session_trans_id : Val) (session_pay_request : Val)
    (session_issuer_key : Val) (qs : Val) :
    Page × List BangoCall × List Task :=
  if fake_payments then
    (.success, [],
     [.fake_payment_notify ("fakepay:" ++ fake_uuid)
        session_pay_request session_issuer_key])
  else if !(pyGet qs "ResponseCode" == .str "OK") then
    (.systemError .BAD_BANGO_CODE, [], [])
  else
    match _record notifyOk session_trans_id qs with
    | (.recordedOk, calls) =>
        (.success, calls, [.payment_notify (pyGet qs "MerchantTransactionId")])
    | (.devError m, calls) => (.systemError m, calls, [])

/-- The error webhook view, src/webpay/bango/views.py lines 114-140. -/
def error (notifyOk : Bool) (session_trans_id : Val) (qs : Val) :
    Page × List BangoCall × List Task :=
  if pyGet qs "ResponseCode" == .str "OK" then
    (.systemError .BAD_BANGO_CODE, [], [])
  else if pyGet qs "ResponseCode" == .str "CANCEL" then
    (.cancel .USER_CANCELLED, [], [])
  else
    match _record notifyOk session_trans_id qs with
    | (.devError m, calls) => (.systemError m, calls, [])
    | (.recordedOk, calls) =>
        if pyGet qs "ResponseCode" == .str "NOT_SUPPORTED" then
          (.systemError .UNSUPPORTED_PAY, calls, [])
        else
          (.systemError .BANGO_ERROR, calls, [])

/-- Modelled from the spec: the outcome of the Basic-Auth parser basic
from webpay/bango/auth.py, which is not under src.  Per the spec it
raises NoHeader when the authorization header is absent, WrongHeader when
the header is present but non-conforming, and otherwise yields the
credential pair. -/
inductive AuthOutcome where
  | noHeader : AuthOutcome
  | wrongHeader : AuthOutcome
  | ok : String → String → AuthOutcome
deriving DecidableEq, Repr

/-- A plain HTTP response as built by the notification view: status code,
body content and the optional WWW-Authenticate header
(HttpResponseNotAuthenticated, src/webpay/bango/views.py lines 22-27,
sets it to a Basic realm challenge built from settings.DOMAIN). -/
structure HttpResp where
  status : Nat
  content : String
  www_authenticate : Option String
deriving DecidableEq, Repr

/-- The dict the notification view POSTs to the solitude bango event
endpoint (src/webpay/bango/views.py lines 174-178). -/
def event_payload (xml username password : String) : Val :=
  Val.dict
    [("notification", .str xml),
     ("password", .str password),
     ("username", .str username)]

/-- The server-to-server notification view, src/webpay/bango/views.py
lines 143-184: dispatch on the Basic-Auth outcome (401 with a realm
challenge when the header is missing, 403 when present but invalid),
otherwise POST the XML body and the credentials to the solitude event
endpoint; a HttpClientError from that POST (eventOk false) becomes a 502
response so that Bango re-sends the notice. -/
def notification (domain : String) (auth : AuthOutcome) (eventOk : Bool)
    (xml : String) : HttpResp × List BangoCall :=
  match auth with
  | .noHeader =>
      (HttpResp.mk 401 "" (some ("Basic realm=\x22" ++ domain ++ "\x22")), [])
  | .wrongHeader => (HttpResp.mk 403 "" none, [])
  | .ok username password =>
      if eventOk then
        (HttpResp.mk 200 "OK" none, [.eventPost (event_payload xml username password)])
      else
        (HttpResp.mk 502 "Not OK" none, [.eventPost (event_payload xml username password)])

/-!  The universal provider client, src/lib/solitude/api.py lines
307-349. -/

/-- State of a UniversalSolitudeAPI instance: the provider attribute,
None right after init (line 314). -/
structure UniversalState where
  provider : Val
deriving DecidableEq, Repr

/-- UniversalSolitudeAPI.set_provider, src/lib/solitude/api.py lines
320-321: self.provider becomes the argument when truthy, else
settings.PAYMENT_PROVIDER. -/
def set_provider (payment_provider : Val) (provider : Val)
    (_st : UniversalState) : UniversalState :=
  UniversalState.mk (if truthy provider then provider else payment_provider)

/-- UniversalSolitudeAPI.api, src/lib/solitude/api.py lines 316-318: the
assert on self.provider fails with the message below when the provider is
unset or falsy; otherwise the zippy sub-resource for the provider is
returned (embedded as the provider value itself). -/
def uni_api (st : UniversalState) : Except String Val :=
  if truthy st.provider then Except.ok st.provider
  else Except.error "self.provider has not been set"

/-- Outcome of the two universal operations: both end in
NotImplementedError (src/lib/solitude/api.py lines 340 and 349). -/
inductive UniOutcome where
  | notImplemented : UniOutcome
  | assertionFailed : String → UniOutcome
deriving DecidableEq, Repr

/-- UniversalSolitudeAPI.configure_product_for_billing, src/lib/solitude/
api.py lines 323-340: set the provider from the argument or the
configuration, then raise NotImplementedError; the api method (and with
it the provider assert) is never invoked, it only appears in a comment. -/
def uni_configure_product_for_billing (payment_provider provider : Val)
    (st : UniversalState) : UniOutcome × UniversalState :=
  (.notImplemented, set_provider payment_provider provider st)

/-- UniversalSolitudeAPI.create_product, src/lib/solitude/api.py lines
342-349: same shape as configure_product_for_billing. -/
def uni_create_product (payment_provider provider : Val)
    (st : UniversalState) : UniOutcome × UniversalState :=
  (.notImplemented, set_provider payment_provider provider st)

/-!  Theorems about the claims. -/

/-- Claim C4, counterexample: a raw response whose errors field holds the
empty list (a falsy value) is not returned unchanged; the normalizer
falls through the truthiness test of res.get on errors and produces the
empty dict.  So normalization is not the identity on every response that
contains an errors field. -/
theorem claim_C4_counterexample :
    object_from_response (Val.dict [("errors", Val.list [])]) = Val.dict [] ∧
    Val.dict [] ≠ Val.dict [("errors", Val.list [])] := by
  decide

/-- Claim C4, amended: for every raw backend response whose errors field
holds a truthy value, the normalizer returns the raw response itself
unchanged, regardless of any other fields present. -/
theorem claim_C4_theorem (res : Val)
    (h : truthy (pyGet res "errors") = true) :
    object_from_response res = res := by
  simp [object_from_response, h]

/-- Claim C4, witness: the amended theorem applied to a concrete error
response. -/
theorem claim_C4_witness :
    object_from_response (Val.dict [("errors", Val.list [Val.str "x"])]) =
      Val.dict [("errors", Val.list [Val.str "x"])] :=
  claim_C4_theorem (Val.dict [("errors", Val.list [Val.str "x"])]) (by decide)

/-- Claim C6: a notification POST with no Basic-Auth header yields HTTP
401 carrying the WWW-Authenticate Basic realm challenge built from the
configured domain, and a present but non-conforming header yields HTTP
403; in both cases the solitude call trace is empty, so no backend call
is made and malformed credentials are never accepted.  The Basic-Auth
parser itself lives in webpay/bango/auth.py, not under src, and is
modelled from the spec as the AuthOutcome oracle. -/
theorem claim_C6_theorem (domain : String) (eventOk : Bool) (xml : String) :
    notification domain AuthOutcome.noHeader eventOk xml =
      (HttpResp.mk 401 "" (some ("Basic realm=\x22" ++ domain ++ "\x22")), []) ∧
    notification domain AuthOutcome.wrongHeader eventOk xml =
      (HttpResp.mk 403 "" none, []) :=
  ⟨rfl, rfl⟩

/-- Claim C9, counterexample: invoking configure_product_for_billing (or
create_product) on a fresh universal client, before any provider has been
selected and with no configured default, does not fail with the provider
has not been set assertion: it raises NotImplementedError. -/
theorem claim_C9_counterexample :
    uni_configure_product_for_billing Val.null Val.null
        (UniversalState.mk Val.null) =
      (UniOutcome.notImplemented, UniversalState.mk Val.null) ∧
    uni_create_product Val.null Val.null (UniversalState.mk Val.null) =
      (UniOutcome.notImplemented, UniversalState.mk Val.null) ∧
    UniOutcome.notImplemented ≠
      UniOutcome.assertionFailed "self.provider has not been set" := by
  decide

/-- Claim C9, amended: both universal operations first select the provider
(from the explicit argument or the configuration) and then raise the not
implemented error unconditionally, whether or not a provider was set
before; the provider has not been set failure belongs to the api accessor,
which fails exactly when the provider attribute is unset or falsy and
which neither operation ever reaches. -/
theorem claim_C9_theorem (payment_provider provider : Val)
    (st : UniversalState) :
    uni_configure_product_for_billing payment_provider provider st =
      (UniOutcome.notImplemented, set_provider payment_provider provider st) ∧
    uni_create_product payment_provider provider st =
      (UniOutcome.notImplemented, set_provider payment_provider provider st) ∧
    (uni_api st = Except.error "self.provider has not been set" ↔
      truthy st.provider = false) := by
  refine ⟨rfl, rfl, ?_⟩
  cases h : truthy st.provider <;> simp [uni_api, h]

/-- Claim C9, witness: the amended theorem applied to a fresh client with
a configured default provider name. -/
theorem claim_C9_witness :
    uni_configure_product_for_billing (Val.str "bango") Val.null
        (UniversalState.mk Val.null) =
      (UniOutcome.notImplemented, UniversalState.mk (Val.str "bango")) ∧
    uni_api (UniversalState.mk Val.null) =
      Except.error "self.provider has not been set" := by
  have h := claim_C9_theorem (Val.str "bango") Val.null (UniversalState.mk Val.null)
  exact ⟨h.1.trans (by decide), h.2.2.mpr (by decide)⟩

/-- Claim C2, counterexample: a success-endpoint webhook GET with
ResponseCode CANCEL (fake payments disabled, matching session and
transaction ids) renders the system error page with code BAD_BANGO_CODE,
not the cancellation page, so the CANCEL outcome is not independent of
which callback endpoint receives the request. -/
theorem claim_C2_counterexample :
    success false true "f" (Val.str "a") Val.null Val.null
        (Val.dict [("ResponseCode", Val.str "CANCEL"),
                   ("MerchantTransactionId", Val.str "a")]) =
      (Page.systemError DevMsg.BAD_BANGO_CODE, [], []) ∧
    Page.systemError DevMsg.BAD_BANGO_CODE ≠ Page.cancel DevMsg.USER_CANCELLED := by
  decide

/-- Claim C2, amended: for every webhook GET with ResponseCode CANCEL and
any other query-string and session content, no backend notification write
is attempted by either callback endpoint; the error endpoint renders the
cancellation page with developer code USER_CANCELLED, while the success
endpoint (with fake payments disabled) renders the system error page with
code BAD_BANGO_CODE because CANCEL fails its response-code precheck. -/
theorem claim_C2_theorem (notifyOk : Bool) (fake_uuid : String)
    (session pr ik qs : Val)
    (h : pyGet qs "ResponseCode" = Val.str "CANCEL") :
    error notifyOk session qs = (Page.cancel DevMsg.USER_CANCELLED, [], []) ∧
    success false notifyOk fake_uuid session pr ik qs =
      (Page.systemError DevMsg.BAD_BANGO_CODE, [], []) := by
  constructor
  · simp [error, h]
  · simp [success, h]

/-- Claim C2, witness: the amended theorem applied to a concrete CANCEL
request with a malformed remainder (no transaction id at all). -/
theorem claim_C2_witness :
    error true (Val.str "a") (Val.dict [("ResponseCode", Val.str "CANCEL")]) =
      (Page.cancel DevMsg.USER_CANCELLED, [], []) ∧
    success false true "f" (Val.str "a") Val.null Val.null
        (Val.dict [("ResponseCode", Val.str "CANCEL")]) =
      (Page.systemError DevMsg.BAD_BANGO_CODE, [], []) :=
  claim_C2_theorem true "f" (Val.str "a") Val.null Val.null
    (Val.dict [("ResponseCode", Val.str "CANCEL")]) (by decide)

/-- Claim C1, counterexample: a webhook GET at the error endpoint whose
session-bound transaction id (a) differs from the MerchantTransactionId
of the request (b) but whose ResponseCode is CANCEL renders the
cancellation page, not the no-active-transaction developer error, because
both endpoints test the response code before the record step runs.  So
the outcome is not NO_ACTIVE_TRANS for every value of ResponseCode. -/
theorem claim_C1_counterexample :
    error true (Val.str "a")
        (Val.dict [("ResponseCode", Val.str "CANCEL"),
                   ("MerchantTransactionId", Val.str "b")]) =
      (Page.cancel DevMsg.USER_CANCELLED, [], []) ∧
    Page.cancel DevMsg.USER_CANCELLED ≠
      Page.systemError DevMsg.NO_ACTIVE_TRANS := by
  decide

/-- Claim C1, amended: whenever a truthy session-bound transaction id
differs from the MerchantTransactionId of the request, or the request
carries no (truthy) transaction id at all, the record step returns the
NO_ACTIVE_TRANS developer error without any backend call, for every value
of ResponseCode; the endpoints surface that error whenever their
response-code precheck lets the record step run, namely on the success
endpoint when ResponseCode is OK and on the error endpoint when
ResponseCode is neither OK nor CANCEL. -/
theorem claim_C1_theorem (notifyOk : Bool) (fake_uuid : String)
    (session pr ik qs : Val)
    (hmis : (truthy session = true ∧ pyGet qs "MerchantTransactionId" ≠ session) ∨
            truthy (pyGet qs "MerchantTransactionId") = false) :
    _record notifyOk session qs =
      (RecordResult.devError DevMsg.NO_ACTIVE_TRANS, []) ∧
    (pyGet qs "ResponseCode" = Val.str "OK" →
      success false notifyOk fake_uuid session pr ik qs =
        (Page.systemError DevMsg.NO_ACTIVE_TRANS, [], [])) ∧
    (pyGet qs "ResponseCode" ≠ Val.str "OK" →
     pyGet qs "ResponseCode" ≠ Val.str "CANCEL" →
      error notifyOk session qs =
        (Page.systemError DevMsg.NO_ACTIVE_TRANS, [], [])) := by
  have hrec : _record notifyOk session qs =
      (RecordResult.devError DevMsg.NO_ACTIVE_TRANS, []) := by
    rcases hmis with ⟨hs, hne⟩ | h0
    · simp [_record, hs, hne]
    · by_cases hfst :
        (truthy session && !(pyGet qs "MerchantTransactionId" == session)) = true
      · simp [_record, hfst]
      · simp [_record, hfst, h0]
  refine ⟨hrec, fun hOK => ?_, fun hne1 hne2 => ?_⟩
  · simp [success, hOK, hrec]
  · simp [error, hrec, hne1, hne2]

/-- Claim C1, witness: the amended theorem applied at two concrete
requests with session id a and request id b, one with ResponseCode OK for
the success endpoint and one with an arbitrary other code for the error
endpoint. -/
theorem claim_C1_witness :
    _record true (Val.str "a")
        (Val.dict [("ResponseCode", Val.str "OK"),
                   ("MerchantTransactionId", Val.str "b")]) =
      (RecordResult.devError DevMsg.NO_ACTIVE_TRANS, []) ∧
    success false true "f" (Val.str "a") Val.null Val.null
        (Val.dict [("ResponseCode", Val.str "OK"),
                   ("MerchantTransactionId", Val.str "b")]) =
      (Page.systemError DevMsg.NO_ACTIVE_TRANS, [], []) ∧
    error true (Val.str "a")
        (Val.dict [("ResponseCode", Val.str "WEIRD"),
                   ("MerchantTransactionId", Val.str "b")]) =
      (Page.systemError DevMsg.NO_ACTIVE_TRANS, [], []) := by
  have h1 := claim_C1_theorem true "f" (Val.str "a") Val.null Val.null
    (Val.dict [("ResponseCode", Val.str "OK"),
               ("MerchantTransactionId", Val.str "b")])
    (Or.inl ⟨by decide, by decide⟩)
  have h2 := claim_C1_theorem true "f" (Val.str "a") Val.null Val.null
    (Val.dict [("ResponseCode", Val.str "WEIRD"),
               ("MerchantTransactionId", Val.str "b")])
    (Or.inl ⟨by decide, by decide⟩)
  exact ⟨h1.1, h1.2.1 (by decide), h2.2.2 (by decide) (by decide)⟩

/-- Claim C7: when the solitude POST raises HttpClientError, the record
step of the GET callbacks converts it to the NOTICE_ERROR developer code
after exactly one notification POST (no retry), and each GET endpoint
still returns a rendered system error page rather than letting the
exception escape; the POST notification endpoint instead converts the
failure of its single event POST to an HTTP 502 response so that the
provider re-sends the notice.  The hypotheses put the request past the
transaction-id validation so that the record step reaches the backend. -/
theorem claim_C7_theorem (session pr ik qs : Val) (fake_uuid : String)
    (domain username password xml : String)
    (hid : truthy (pyGet qs "MerchantTransactionId") = true)
    (hses : truthy session = false ∨ pyGet qs "MerchantTransactionId" = session) :
    _record false session qs =
      (RecordResult.devError DevMsg.NOTICE_ERROR,
       [BangoCall.notificationPost (notice_payload qs)]) ∧
    (pyGet qs "ResponseCode" = Val.str "OK" →
      success false false fake_uuid session pr ik qs =
        (Page.systemError DevMsg.NOTICE_ERROR,
         [BangoCall.notificationPost (notice_payload qs)], [])) ∧
    (pyGet qs "ResponseCode" ≠ Val.str "OK" →
     pyGet qs "ResponseCode" ≠ Val.str "CANCEL" →
      error false session qs =
        (Page.systemError DevMsg.NOTICE_ERROR,
         [BangoCall.notificationPost (notice_payload qs)], [])) ∧
    notification domain (AuthOutcome.ok username password) false xml =
      (HttpResp.mk 502 "Not OK" none,
       [BangoCall.eventPost (event_payload xml username password)]) := by
  have hrec : _record false session qs =
      (RecordResult.devError DevMsg.NOTICE_ERROR,
       [BangoCall.notificationPost (notice_payload qs)]) := by
    rcases hses with hs0 | heq
    · simp [_record, hs0, hid]
    · have hid2 : truthy session = true := heq ▸ hid
      simp [_record, heq, hid2]
  refine ⟨hrec, fun hOK => ?_, fun hne1 hne2 => ?_, rfl⟩
  · simp [success, hOK, hrec]
  · simp [error, hrec, hne1, hne2]

/-- Claim C7, witness: the theorem applied at two concrete requests whose
transaction id matches the session, one with ResponseCode OK for the
success endpoint and one with another code for the error endpoint. -/
theorem claim_C7_witness :
    success false false "f" (Val.str "a") Val.null Val.null
        (Val.dict [("ResponseCode", Val.str "OK"),
                   ("MerchantTransactionId", Val.str "a")]) =
      (Page.systemError DevMsg.NOTICE_ERROR,
       [BangoCall.notificationPost (notice_payload
          (Val.dict [("ResponseCode", Val.str "OK"),
                     ("MerchantTransactionId", Val.str "a")]))], []) ∧
    error false (Val.str "a")
        (Val.dict [("ResponseCode", Val.str "WEIRD"),
                   ("MerchantTransactionId", Val.str "a")]) =
      (Page.systemError DevMsg.NOTICE_ERROR,
       [BangoCall.notificationPost (notice_payload
          (Val.dict [("ResponseCode", Val.str "WEIRD"),
                     ("MerchantTransactionId", Val.str "a")]))], []) ∧
    notification "marketplace.firefox.com" (AuthOutcome.ok "u" "p") false "<xml/>" =
      (HttpResp.mk 502 "Not OK" none,
       [BangoCall.eventPost (event_payload "<xml/>" "u" "p")]) := by
  have h1 := claim_C7_theorem (Val.str "a") Val.null Val.null
    (Val.dict [("ResponseCode", Val.str "OK"),
               ("MerchantTransactionId", Val.str "a")])
    "f" "marketplace.firefox.com" "u" "p" "<xml/>"
    (by decide) (Or.inr (by decide))
  have h2 := claim_C7_theorem (Val.str "a") Val.null Val.null
    (Val.dict [("ResponseCode", Val.str "WEIRD"),
               ("MerchantTransactionId", Val.str "a")])
    "f" "marketplace.firefox.com" "u" "p" "<xml/>"
    (by decide) (Or.inr (by decide))
  exact ⟨h1.2.1 (by decide), h2.2.2.1 (by decide) (by decide), h1.2.2.2⟩

/-- Claim C8: the payment notification task appears in the tasks the
success view enqueues exactly when fake payments are disabled, the
response code is OK, the record step reported RECORDED_OK, and the task
key is the MerchantTransactionId of the request; the error view never
enqueues it.  The enqueue is fire-and-forget by construction of the
embedding: the page and call components of the view results are built
without reference to any task result. -/
theorem claim_C8_theorem (fake notifyOk : Bool) (fake_uuid : String)
    (session pr ik qs t : Val) :
    (Task.payment_notify t ∈ (success fake notifyOk fake_uuid session pr ik qs).2.2 ↔
      (fake = false ∧ pyGet qs "ResponseCode" = Val.str "OK" ∧
       (_record notifyOk session qs).1 = RecordResult.recordedOk ∧
       t = pyGet qs "MerchantTransactionId")) ∧
    Task.payment_notify t ∉ (error notifyOk session qs).2.2 := by
  constructor
  · cases fake with
    | true => simp [success]
    | false =>
        by_cases hOK : pyGet qs "ResponseCode" = Val.str "OK"
        · rcases h : _record notifyOk session qs with ⟨r, calls⟩
          cases r with
          | recordedOk => simp [success, hOK, h]
          | devError m => simp [success, hOK, h]
        · simp [success, hOK]
  · by_cases h1 : pyGet qs "ResponseCode" = Val.str "OK"
    · simp [error, h1]
    · by_cases h2 : pyGet qs "ResponseCode" = Val.str "CANCEL"
      · simp [error, h1, h2]
      · rcases h : _record notifyOk session qs with ⟨r, calls⟩
        cases r with
        | recordedOk =>
            by_cases h3 : pyGet qs "ResponseCode" = Val.str "NOT_SUPPORTED" <;>
              simp [error, h1, h2, h3, h]
        | devError m => simp [error, h1, h2, h]

/-- Claim C8, witness: the equivalence applied at a concrete valid
success request, in the forward direction via its concrete conditions. -/
theorem claim_C8_witness :
    Task.payment_notify (Val.str "a") ∈
      (success false true "f" (Val.str "a") Val.null Val.null
        (Val.dict [("ResponseCode", Val.str "OK"),
                   ("MerchantTransactionId", Val.str "a")])).2.2 ∧
    Task.payment_notify (Val.str "a") ∉
      (error true (Val.str "a")
        (Val.dict [("ResponseCode", Val.str "OK"),
                   ("MerchantTransactionId", Val.str "a")])).2.2 := by
  have h := claim_C8_theorem false true "f" (Val.str "a") Val.null Val.null
    (Val.dict [("ResponseCode", Val.str "OK"),
               ("MerchantTransactionId", Val.str "a")]) (Val.str "a")
  exact ⟨h.1.mpr ⟨rfl, by decide, by decide, by decide⟩, h.2⟩

/-- Claim C5, counterexample: a backend response that carries metadata
headers but no ETag token in them does trigger cache writes.  The
normalizer attaches the .get default, the empty string, under the etag
key, so both create_buyer and get_buyer write the identifier relation
with an empty token and the body relation under the key buyer: with
nothing after the colon, leaving the cache changed. -/
theorem claim_C5_counterexample :
    create_buyer
        (Val.dict [("resource_pk", Val.int 1),
                   ("meta", Val.dict [("headers", Val.dict [])])])
        "u" Val.null [] =
      (Val.dict [("resource_pk", Val.int 1),
                 ("meta", Val.dict [("headers", Val.dict [])]),
                 ("id", Val.int 1), ("etag", Val.str "")],
       [("etag:u", Val.str ""),
        ("buyer:", Val.dict [("resource_pk", Val.int 1),
                             ("meta", Val.dict [("headers", Val.dict [])]),
                             ("id", Val.int 1), ("etag", Val.str "")])],
       [ApiCall.buyerPost (Val.dict [("uuid", Val.str "u"), ("pin", Val.null)])]) ∧
    get_buyer
        (fun _ => FetchResult.ok
          (Val.dict [("resource_pk", Val.int 1),
                     ("meta", Val.dict [("headers", Val.dict [])])]))
        "u" true [] =
      some (Val.dict [("resource_pk", Val.int 1),
                      ("meta", Val.dict [("headers", Val.dict [])]),
                      ("id", Val.int 1), ("etag", Val.str "")],
            [("etag:u", Val.str ""),
             ("buyer:", Val.dict [("resource_pk", Val.int 1),
                                  ("meta", Val.dict [("headers", Val.dict [])]),
                                  ("id", Val.int 1), ("etag", Val.str "")])],
            [ApiCall.buyerGet none "u"]) ∧
    ([("etag:u", Val.str ""),
      ("buyer:", Val.dict [("resource_pk", Val.int 1),
                           ("meta", Val.dict [("headers", Val.dict [])]),
                           ("id", Val.int 1), ("etag", Val.str "")])] : Cache) ≠
      ([] : Cache) := by
  decide

/-- Claim C5, amended: for every create_buyer or get_buyer call whose
normalized entity carries no etag key (in particular when the raw
response has no metadata mapping at all, as opposed to metadata without a
token, which yields an empty-string token), no cache write is performed -
the cache is returned exactly as it was - no error is raised, and the
normalized entity is still returned. -/
theorem claim_C5_theorem (res : Val) (uuid : String) (pin : Val)
    (cache : Cache) (fetch : Backend) (use_etags : Bool)
    (hf : ∀ c, fetch c = FetchResult.ok res)
    (hno : dget (object_from_response res) "etag" = none) :
    create_buyer res uuid pin cache =
      (object_from_response res, cache,
       [ApiCall.buyerPost (Val.dict [("uuid", Val.str uuid), ("pin", pin)])]) ∧
    (∃ calls, get_buyer fetch uuid use_etags cache =
       some (object_from_response res, cache, calls)) := by
  constructor
  · simp [create_buyer, hno]
  · cases use_etags with
    | false =>
        refine ⟨[ApiCall.buyerGet none uuid], ?_⟩
        simp [get_buyer, get_buyer_step, hf, hno, truthy]
    | true =>
        by_cases he :
          truthy ((Cache.get cache ("etag:" ++ uuid)).getD Val.null) = true
        · refine ⟨[ApiCall.buyerGet
            (some ((Cache.get cache ("etag:" ++ uuid)).getD Val.null)) uuid], ?_⟩
          simp [get_buyer, get_buyer_step, hf, hno, he]
        · refine ⟨[ApiCall.buyerGet none uuid], ?_⟩
          simp [get_buyer, get_buyer_step, hf, hno, he]

/-- Claim C5, witness: the amended theorem applied to a concrete response
without metadata, on an empty cache. -/
theorem claim_C5_witness :
    create_buyer (Val.dict [("resource_pk", Val.int 1)]) "u" Val.null [] =
      (object_from_response (Val.dict [("resource_pk", Val.int 1)]), [],
       [ApiCall.buyerPost (Val.dict [("uuid", Val.str "u"), ("pin", Val.null)])]) ∧
    (∃ calls,
       get_buyer (fun _ => FetchResult.ok (Val.dict [("resource_pk", Val.int 1)]))
           "u" true [] =
         some (object_from_response (Val.dict [("resource_pk", Val.int 1)]),
               [], calls)) :=
  claim_C5_theorem (Val.dict [("resource_pk", Val.int 1)]) "u" Val.null []
    (fun _ => FetchResult.ok (Val.dict [("resource_pk", Val.int 1)])) true
    (fun _ => rfl) (by decide)

/-- Unfolding of the conditional get_buyer run when a truthy version
token is cached under the identifier: the backend is consulted with the
token as precondition, and each outcome is dispatched as in the source. -/
theorem get_buyer_cond_unfold (fetch : Backend) (uuid : String)
    (cache : Cache) (e : Val)
    (hcache : Cache.get cache ("etag:" ++ uuid) = some e)
    (he : truthy e = true) :
    get_buyer fetch uuid true cache =
      (match fetch (some e) with
       | FetchResult.notModified =>
           if truthy ((Cache.get cache ("buyer:" ++ pyStr e)).getD Val.null) = true
           then some ((Cache.get cache ("buyer:" ++ pyStr e)).getD Val.null,
                      cache, [ApiCall.buyerGet (some e) uuid])
           else
             match get_buyer fetch uuid false cache with
             | some (v, c, calls) =>
                 some (v, c, ApiCall.buyerGet (some e) uuid :: calls)
             | none => none
       | FetchResult.ok res =>
           match dget (object_from_response res) "etag" with
           | some e2 =>
               some (object_from_response res,
                     Cache.set (Cache.set cache ("etag:" ++ uuid) e2)
                       ("buyer:" ++ pyStr e2) (object_from_response res),
                     [ApiCall.buyerGet (some e) uuid])
           | none =>
               some (object_from_response res, cache,
                     [ApiCall.buyerGet (some e) uuid])) := by
  simp [get_buyer, get_buyer_step, hcache, he]

/-- Unfolding of the unconditional get_buyer run (use_etags false): no
precondition is attached and no retry continuation is available. -/
theorem get_buyer_nocache_unfold (fetch : Backend) (uuid : String)
    (cache : Cache) :
    get_buyer fetch uuid false cache =
      (match fetch none with
       | FetchResult.notModified =>
           if truthy ((Cache.get cache ("buyer:" ++ pyStr Val.null)).getD Val.null) = true
           then some ((Cache.get cache ("buyer:" ++ pyStr Val.null)).getD Val.null,
                      cache, [ApiCall.buyerGet none uuid])
           else none
       | FetchResult.ok res =>
           match dget (object_from_response res) "etag" with
           | some e2 =>
               some (object_from_response res,
                     Cache.set (Cache.set cache ("etag:" ++ uuid) e2)
                       ("buyer:" ++ pyStr e2) (object_from_response res),
                     [ApiCall.buyerGet none uuid])
           | none =>
               some (object_from_response res, cache,
                     [ApiCall.buyerGet none uuid])) := by
  simp [get_buyer, get_buyer_step, truthy]

/-- Claim C3: get_buyer with use_etags implements the conditional-read
algorithm.  With a truthy version token cached under the identifier:
(1) whatever the outcome, the first backend read carries the token as the
If-None-Match precondition; (2) on a not-modified signal with the entity
body cached under the token, that body is returned with the cache
untouched and the conditional check as the only backend call; (3) on a
not-modified signal with the body missing from the cache, the outcome is
that of exactly one unconditional re-fetch (use_etags false), whose own
trace is the single unconditional read, prefixed by the conditional
check; (4) on a modified response whose normalized entity carries a
token, both cache relations - identifier to token and token to body - are
written and the normalized entity is returned. -/
theorem claim_C3_theorem (fetch : Backend) (uuid : String) (cache : Cache)
    (e : Val)
    (hcache : Cache.get cache ("etag:" ++ uuid) = some e)
    (he : truthy e = true) :
    (∀ r c calls, get_buyer fetch uuid true cache = some (r, c, calls) →
       calls.head? = some (ApiCall.buyerGet (some e) uuid)) ∧
    (∀ body, fetch (some e) = FetchResult.notModified →
       Cache.get cache ("buyer:" ++ pyStr e) = some body →
       truthy body = true →
       get_buyer fetch uuid true cache =
         some (body, cache, [ApiCall.buyerGet (some e) uuid])) ∧
    (∀ v c calls2, fetch (some e) = FetchResult.notModified →
       truthy ((Cache.get cache ("buyer:" ++ pyStr e)).getD Val.null) = false →
       get_buyer fetch uuid false cache = some (v, c, calls2) →
       get_buyer fetch uuid true cache =
         some (v, c, ApiCall.buyerGet (some e) uuid :: calls2) ∧
       calls2 = [ApiCall.buyerGet none uuid]) ∧
    (∀ res e2, fetch (some e) = FetchResult.ok res →
       dget (object_from_response res) "etag" = some e2 →
       get_buyer fetch uuid true cache =
         some (object_from_response res,
               Cache.set (Cache.set cache ("etag:" ++ uuid) e2)
                 ("buyer:" ++ pyStr e2) (object_from_response res),
               [ApiCall.buyerGet (some e) uuid])) := by
  refine ⟨?_, ?_, ?_, ?_⟩
  · intro r c calls h
    rw [get_buyer_cond_unfold fetch uuid cache e hcache he] at h
    cases hfe : fetch (some e) <;> rw [hfe] at h <;> split at h
    · split at h
      · simp only [Option.some.injEq, Prod.mk.injEq] at h
        obtain ⟨-, -, rfl⟩ := h
        rfl
      · split at h
        · simp only [Option.some.injEq, Prod.mk.injEq] at h
          obtain ⟨-, -, rfl⟩ := h
          rfl
        · exact Option.noConfusion h
    · rename_i heq
      injection heq
    · rename_i heq
      injection heq
    · split at h <;>
        · simp only [Option.some.injEq, Prod.mk.injEq] at h
          obtain ⟨-, -, rfl⟩ := h
          rfl
  · intro body hnm hbody ht
    rw [get_buyer_cond_unfold fetch uuid cache e hcache he, hnm, hbody]
    simp [ht]
  · intro v c calls2 hnm hmiss hnc
    constructor
    · rw [get_buyer_cond_unfold fetch uuid cache e hcache he, hnm]
      simp [hmiss, hnc]
    · rw [get_buyer_nocache_unfold] at hnc
      cases hfn : fetch none <;> rw [hfn] at hnc <;> split at hnc
      · split at hnc
        · simp only [Option.some.injEq, Prod.mk.injEq] at hnc
          exact hnc.2.2.symm
        · exact Option.noConfusion hnc
      · rename_i heq
        injection heq
      · rename_i heq
        injection heq
      · split at hnc <;>
          · simp only [Option.some.injEq, Prod.mk.injEq] at hnc
            exact hnc.2.2.symm
  · intro res e2 hok hetag
    rw [get_buyer_cond_unfold fetch uuid cache e hcache he, hok]
    show (match dget (object_from_response res) "etag" with
          | some e3 =>
              some (object_from_response res,
                    Cache.set (Cache.set cache ("etag:" ++ uuid) e3)
                      ("buyer:" ++ pyStr e3) (object_from_response res),
                    [ApiCall.buyerGet (some e) uuid])
          | none =>
              some (object_from_response res, cache,
                    [ApiCall.buyerGet (some e) uuid])) =
        some (object_from_response res,
              Cache.set (Cache.set cache ("etag:" ++ uuid) e2)
                ("buyer:" ++ pyStr e2) (object_from_response res),
              [ApiCall.buyerGet (some e) uuid])
    rw [hetag]

/-- Claim C3, witness: the theorem applied to a concrete two-phase
backend, in all three outcome scenarios: cached body hit on not-modified,
single unconditional re-fetch on an inconsistent cache, and double cache
write on a modified response. -/
theorem claim_C3_witness :
    get_buyer
        (fun c => if c = some (Val.str "t1") then FetchResult.notModified
                  else FetchResult.ok (Val.dict [("resource_pk", Val.int 1)]))
        "u" true
        [("etag:u", Val.str "t1"),
         ("buyer:t1", Val.dict [("id", Val.int 1), ("etag", Val.str "t1")])] =
      some (Val.dict [("id", Val.int 1), ("etag", Val.str "t1")],
            [("etag:u", Val.str "t1"),
             ("buyer:t1", Val.dict [("id", Val.int 1), ("etag", Val.str "t1")])],
            [ApiCall.buyerGet (some (Val.str "t1")) "u"]) ∧
    (get_buyer
        (fun c => if c = some (Val.str "t1") then FetchResult.notModified
                  else FetchResult.ok (Val.dict [("resource_pk", Val.int 1)]))
        "u" true [("etag:u", Val.str "t1")] =
      some (object_from_response (Val.dict [("resource_pk", Val.int 1)]),
            [("etag:u", Val.str "t1")],
            [ApiCall.buyerGet (some (Val.str "t1")) "u",
             ApiCall.buyerGet none "u"]) ∧
     [ApiCall.buyerGet none "u"] = [ApiCall.buyerGet none "u"]) ∧
    get_buyer
        (fun _ => FetchResult.ok
          (Val.dict [("resource_pk", Val.int 2),
                     ("meta", Val.dict [("headers",
                        Val.dict [("etag", Val.str "t2")])])]))
        "u" true [("etag:u", Val.str "t1")] =
      some (object_from_response
              (Val.dict [("resource_pk", Val.int 2),
                         ("meta", Val.dict [("headers",
                            Val.dict [("etag", Val.str "t2")])])]),
            Cache.set (Cache.set [("etag:u", Val.str "t1")] "etag:u" (Val.str "t2"))
              "buyer:t2"
              (object_from_response
                (Val.dict [("resource_pk", Val.int 2),
                           ("meta", Val.dict [("headers",
                              Val.dict [("etag", Val.str "t2")])])])),
            [ApiCall.buyerGet (some (Val.str "t1")) "u"]) := by
  have h1 := claim_C3_theorem
    (fun c => if c = some (Val.str "t1") then FetchResult.notModified
              else FetchResult.ok (Val.dict [("resource_pk", Val.int 1)]))
    "u"
    [("etag:u", Val.str "t1"),
     ("buyer:t1", Val.dict [("id", Val.int 1), ("etag", Val.str "t1")])]
    (Val.str "t1") (by decide) (by decide)
  have h2 := claim_C3_theorem
    (fun c => if c = some (Val.str "t1") then FetchResult.notModified
              else FetchResult.ok (Val.dict [("resource_pk", Val.int 1)]))
    "u" [("etag:u", Val.str "t1")] (Val.str "t1") (by decide) (by decide)
  have h3 := claim_C3_theorem
    (fun _ => FetchResult.ok
      (Val.dict [("resource_pk", Val.int 2),
                 ("meta", Val.dict [("headers",
                    Val.dict [("etag", Val.str "t2")])])]))
    "u" [("etag:u", Val.str "t1")] (Val.str "t1") (by decide) (by decide)
  refine ⟨?_, ?_, ?_⟩
  · exact h1.2.1 (Val.dict [("id", Val.int 1), ("etag", Val.str "t1")])
      (by decide) (by decide) (by decide)
  · exact h2.2.2.1 (object_from_response (Val.dict [("resource_pk", Val.int 1)]))
      [("etag:u", Val.str "t1")] [ApiCall.buyerGet none "u"]
      (by decide) (by decide) (by decide)
  · exact h3.2.2.2
      (Val.dict [("resource_pk", Val.int 2),
                 ("meta", Val.dict [("headers",
                    Val.dict [("etag", Val.str "t2")])])])
      (Val.str "t2") (by decide) (by decide)

/-- Claim C10: each of the four buyer-flag update methods first re-reads
the buyer by uuid (the get_buyer trace comes first in the call list and
the buyer id is taken from the entity it returns), then issues a single
PATCH at that id carrying its payload and guarded by an If-Match header
holding the etag argument, and returns the raw patch response unchanged
when it contains an errors key (whatever the value) and the empty dict
otherwise. -/
theorem claim_C10_theorem (fetch : Backend) (patchRes : Val) (uuid : String)
    (value pin new_pin etag : Val) (cache : Cache)
    (buyer : Val) (c : Cache) (calls : List ApiCall) (i : Val)
    (hget : get_buyer fetch uuid true cache = some (buyer, c, calls))
    (hid : dget buyer "id" = some i) :
    set_needs_pin_reset fetch patchRes uuid value etag cache =
      some ((if hasKey patchRes "errors" then patchRes else Val.dict []), c,
            calls ++ [ApiCall.buyerPatch i
              (Val.dict [("needs_pin_reset", value), ("new_pin", Val.null)]) etag]) ∧
    unset_was_locked fetch patchRes uuid etag cache =
      some ((if hasKey patchRes "errors" then patchRes else Val.dict []), c,
            calls ++ [ApiCall.buyerPatch i
              (Val.dict [("pin_was_locked_out", Val.bool false)]) etag]) ∧
    change_pin fetch patchRes uuid pin etag cache =
      some ((if hasKey patchRes "errors" then patchRes else Val.dict []), c,
            calls ++ [ApiCall.buyerPatch i (Val.dict [("pin", pin)]) etag]) ∧
    set_new_pin fetch patchRes uuid new_pin etag cache =
      some ((if hasKey patchRes "errors" then patchRes else Val.dict []), c,
            calls ++ [ApiCall.buyerPatch i (Val.dict [("new_pin", new_pin)]) etag]) := by
  have hcore : ∀ payload, patch_buyer_flags fetch patchRes uuid payload etag cache =
      some ((if hasKey patchRes "errors" then patchRes else Val.dict []), c,
            calls ++ [ApiCall.buyerPatch i payload etag]) := by
    intro payload
    simp [patch_buyer_flags, hget, hid]
  exact ⟨hcore _, hcore _, hcore _, hcore _⟩

/-- Claim C10, witness: the theorem applied to a concrete backend whose
buyer read yields id 5, a patch response carrying an errors key and one
carrying none, exercised through set_needs_pin_reset and change_pin. -/
theorem claim_C10_witness :
    set_needs_pin_reset
        (fun _ => FetchResult.ok (Val.dict [("resource_pk", Val.int 5)]))
        (Val.dict [("errors", Val.str "boom")]) "u" (Val.bool true)
        (Val.str "W") [] =
      some ((if hasKey (Val.dict [("errors", Val.str "boom")]) "errors"
             then Val.dict [("errors", Val.str "boom")] else Val.dict []), [],
            [ApiCall.buyerGet none "u"] ++
              [ApiCall.buyerPatch (Val.int 5)
                (Val.dict [("needs_pin_reset", Val.bool true),
                           ("new_pin", Val.null)]) (Val.str "W")]) ∧
    change_pin
        (fun _ => FetchResult.ok (Val.dict [("resource_pk", Val.int 5)]))
        (Val.dict []) "u" (Val.str "1234") (Val.str "W") [] =
      some ((if hasKey (Val.dict []) "errors"
             then (Val.dict [] : Val) else Val.dict []), [],
            [ApiCall.buyerGet none "u"] ++
              [ApiCall.buyerPatch (Val.int 5)
                (Val.dict [("pin", Val.str "1234")]) (Val.str "W")]) := by
  have h1 := claim_C10_theorem
    (fun _ => FetchResult.ok (Val.dict [("resource_pk", Val.int 5)]))
    (Val.dict [("errors", Val.str "boom")]) "u" (Val.bool true)
    (Val.str "1234") (Val.str "5678") (Val.str "W") []
    (Val.dict [("resource_pk", Val.int 5), ("id", Val.int 5)]) []
    [ApiCall.buyerGet none "u"] (Val.int 5) (by decide) (by decide)
  have h2 := claim_C10_theorem
    (fun _ => FetchResult.ok (Val.dict [("resource_pk", Val.int 5)]))
    (Val.dict []) "u" (Val.bool true)
    (Val.str "1234") (Val.str "5678") (Val.str "W") []
    (Val.dict [("resource_pk", Val.int 5), ("id", Val.int 5)]) []
    [ApiCall.buyerGet none "u"] (Val.int 5) (by decide) (by decide)
  exact ⟨h1.1, h2.2.2.1⟩

end Webpay
